import Mathlib

/-!
Verification development for the Akademia backend (setupServer.ts, routes.ts,
signin.ts, setupDB.ts, app.ts), shallowly embedded in Lean 4.  Each definition
below is translated from the TypeScript source; doc comments name the source
location it embeds.
-/

namespace Akademia

/-- Environment-sourced configuration referenced by the sources (config.ts is
external to the analysed files; only the fields the sources read are kept). -/
structure Config where
  SECRET_KEY_ONE : String
  SECRET_KEY_TWO : String
  NODE_ENV : String
  CLIENT_URL : String
  REDIS_HOST : String
  DATABASE_URL : String
  JWT_TOKEN : String
deriving DecidableEq, Repr

/-- Options object passed to cookieSession in securityMiddleware
(setupServer.ts lines 37-44). -/
structure CookieSessionOptions where
  name : String
  keys : List String
  maxAge : Nat
  secure : Bool
deriving DecidableEq, Repr

/-- The cookieSession call of securityMiddleware (setupServer.ts lines 37-44):
name session, keys from the two secret keys, maxAge 24 * 7 * 3600,
secure when NODE_ENV is not development. -/
def cookieSessionOptions (c : Config) : CookieSessionOptions :=
  { name := "session"
    keys := [c.SECRET_KEY_ONE, c.SECRET_KEY_TWO]
    maxAge := 24 * 7 * 3600
    secure := c.NODE_ENV != "development" }

/-- The cookie-session library interprets the maxAge option in milliseconds
(it is forwarded to the cookies module, whose maxAge is a number of
milliseconds from the current time). -/
def CookieSessionOptions.maxAgeMilliseconds (o : CookieSessionOptions) : Nat :=
  o.maxAge

/-- Number of milliseconds in 604800 seconds (7 days). -/
def sevenDaysInMilliseconds : Nat := 604800 * 1000

/-- An allowed-origin setting of a CORS policy: either the wildcard or a
single fixed URL. -/
inductive CorsOrigin where
  | any
  | url (u : String)
deriving DecidableEq, Repr

/-- Options object of a CORS policy; credentials and optionsSuccessStatus are
absent from the Socket.IO variant, hence optional. -/
structure CorsOptions where
  origin : CorsOrigin
  credentials : Option Bool
  optionsSuccessStatus : Option Nat
  methods : List String
deriving DecidableEq, Repr

/-- The cors call of securityMiddleware (setupServer.ts lines 47-54):
origin is the wildcard string, credentials true, optionsSuccessStatus 200,
methods GET POST PUT DELETE OPTIONS. -/
def httpCorsOptions : CorsOptions :=
  { origin := CorsOrigin.any
    credentials := some true
    optionsSuccessStatus := some 200
    methods := ["GET", "POST", "PUT", "DELETE", "OPTIONS"] }

/-- The cors field of the Socket.IO Server constructed in createSocketIO
(setupServer.ts lines 103-108): origin is config.CLIENT_URL,
methods GET POST PUT DELETE OPTIONS. -/
def socketIoCorsOptions (c : Config) : CorsOptions :=
  { origin := CorsOrigin.url c.CLIENT_URL
    credentials := none
    optionsSuccessStatus := none
    methods := ["GET", "POST", "PUT", "DELETE", "OPTIONS"] }

/-- The middleware and route registrations performed by AkademiaServer.start
(setupServer.ts) together with applicationRoute (routes.ts), one constructor
per app.use or app.all call, in source order. -/
inductive Middleware where
  | cookieSession
  | hpp
  | helmet
  | cors
  | compression
  | jsonParser
  | urlencodedParser
  | queuesDashboard
  | authRoutes
  | signoutRoutes
  | verifyUser
  | currentUserRoutes
  | notFoundHandler
  | errorHandler
deriving DecidableEq, Repr

/-- Registrations of securityMiddleware (setupServer.ts lines 36-55), in
order: cookieSession, hpp, helmet, cors. -/
def securityMiddleware : List Middleware :=
  [Middleware.cookieSession, Middleware.hpp, Middleware.helmet, Middleware.cors]

/-- Registrations of standardMiddleware (setupServer.ts lines 57-70), in
order: compression, json, urlencoded. -/
def standardMiddleware : List Middleware :=
  [Middleware.compression, Middleware.jsonParser, Middleware.urlencodedParser]

/-- Registrations of applicationRoute (routes.ts lines 9-18), in order: the
queues dashboard, authRoutes, signoutRoutes, then the verifyUser
authentication middleware guarding currentUserRoutes. -/
def applicationRoute : List Middleware :=
  [Middleware.queuesDashboard, Middleware.authRoutes, Middleware.signoutRoutes,
   Middleware.verifyUser, Middleware.currentUserRoutes]

/-- Registrations of globalErrorHandler (setupServer.ts lines 76-88), in
order: the catch-all 404 route, then the error middleware. -/
def globalErrorHandlerRegistrations : List Middleware :=
  [Middleware.notFoundHandler, Middleware.errorHandler]

/-- AkademiaServer.start (setupServer.ts lines 28-34) registers
securityMiddleware, then standardMiddleware, then applicationRoute, then
globalErrorHandler, before starting the server. -/
def registrationOrder : List Middleware :=
  securityMiddleware ++ standardMiddleware ++ applicationRoute ++
    globalErrorHandlerRegistrations

/-- Pipeline stages named by the specification. -/
inductive Stage where
  | security
  | bodyDecoding
  | authGate
  | business
  | errorNorm
deriving DecidableEq, Repr

/-- Stage of each registration: cookieSession, hpp, helmet, cors and
compression are security filters (the spec counts compression among them);
json and urlencoded decode bodies; verifyUser is the authentication gate;
the queues dashboard and the routers dispatch business; the 404 route and
the error middleware normalize errors. -/
def stageOf : Middleware → Stage
  | Middleware.cookieSession => Stage.security
  | Middleware.hpp => Stage.security
  | Middleware.helmet => Stage.security
  | Middleware.cors => Stage.security
  | Middleware.compression => Stage.security
  | Middleware.jsonParser => Stage.bodyDecoding
  | Middleware.urlencodedParser => Stage.bodyDecoding
  | Middleware.queuesDashboard => Stage.business
  | Middleware.authRoutes => Stage.business
  | Middleware.signoutRoutes => Stage.business
  | Middleware.verifyUser => Stage.authGate
  | Middleware.currentUserRoutes => Stage.business
  | Middleware.notFoundHandler => Stage.errorNorm
  | Middleware.errorHandler => Stage.errorNorm

/-- In the list l, every element of stage s1 comes before every element of
stage s2 (no s2 element is followed by an s1 element). -/
def stageBefore (l : List Middleware) (s1 s2 : Stage) : Prop :=
  l.Pairwise (fun a b => ¬(stageOf a = s2 ∧ stageOf b = s1))

instance (l : List Middleware) (s1 s2 : Stage) : Decidable (stageBefore l s1 s2) :=
  List.instDecidablePairwise l

/-- Modelled from the spec: the CustomError hierarchy of error-handler.ts is
not among the analysed sources; per the spec an error kind carries an HTTP
status code and a safe-to-display message, and the serialized error response
shape is a record with a message string. -/
structure CustomError where
  statusCode : Nat
  message : String
deriving DecidableEq, Repr

/-- Serialized error body returned to the client. -/
structure ErrorBody where
  message : String
deriving DecidableEq, Repr

/-- Modelled from the spec: serializeErrors of CustomError produces the
error response shape, a record holding the message string. -/
def CustomError.serializeErrors (e : CustomError) : ErrorBody :=
  { message := e.message }

/-- An error reaching the error middleware: either an instance of CustomError
or any other thrown value (modelled by its string form). -/
inductive AppError where
  | custom (e : CustomError)
  | unknown (description : String)
deriving DecidableEq, Repr

/-- Outcome of the error middleware: either a response with a status code and
a serialized body, or a call to next with no arguments. -/
inductive ErrorHandlerOutcome where
  | respond (status : Nat) (body : ErrorBody)
  | passToNext
deriving DecidableEq, Repr

/-- The error middleware of globalErrorHandler (setupServer.ts lines 81-87):
after logging the error, if it is an instance of CustomError it responds
with the statusCode of the error and serializeErrors; otherwise it calls next()
and produces no response. -/
def globalErrorHandler : AppError → ErrorHandlerOutcome
  | AppError.custom e => ErrorHandlerOutcome.respond e.statusCode e.serializeErrors
  | AppError.unknown _ => ErrorHandlerOutcome.passToNext

/-- Whether an outcome is an InternalError response: HTTP 500 with some body. -/
def ErrorHandlerOutcome.isInternalErrorResponse : ErrorHandlerOutcome → Bool
  | ErrorHandlerOutcome.respond 500 _ => true
  | _ => false

/-- A Redis client, identified by the url it was created with
(createClient of setupServer.ts line 109). -/
structure RedisClient where
  url : String
deriving DecidableEq, Repr

/-- createClient of the redis library: a client for the given url. -/
def createClient (url : String) : RedisClient := { url := url }

/-- RedisClient.duplicate: a new connection with the same configuration. -/
def RedisClient.duplicate (c : RedisClient) : RedisClient := { url := c.url }

/-- Milestones of the startup sequence of AkademiaServer.startServer
(setupServer.ts lines 90-123), in the order the code reaches them. -/
inductive StartupEvent where
  | httpListen
  | socketIoServerCreated
  | pubConnected
  | subConnected
  | adapterInstalled
  | logError
  | socketIoConnectionsSetup
deriving DecidableEq, Repr

/-- The pub and sub clients held by the Socket.IO adapter once createSocketIO
succeeds (setupServer.ts lines 109-112). -/
structure SocketIoSetup where
  corsOptions : CorsOptions
  pubClient : RedisClient
  subClient : RedisClient
deriving DecidableEq, Repr

/-- AkademiaServer.createSocketIO (setupServer.ts lines 102-114): constructs
the Socket.IO Server with its cors options, creates pubClient for
config.REDIS_HOST, duplicates it into subClient, awaits both connects
(Promise.all rejects when either connect fails), then installs the Redis
adapter.  The Booleans say whether each connect attempt succeeds; the result
is the event list produced together with the setup, or none when the
returned promise rejects. -/
def createSocketIo (c : Config) (pubOk subOk : Bool) :
    List StartupEvent × Option SocketIoSetup :=
  let pubClient := createClient c.REDIS_HOST
  let subClient := pubClient.duplicate
  if pubOk && subOk then
    ([StartupEvent.socketIoServerCreated, StartupEvent.pubConnected,
      StartupEvent.subConnected, StartupEvent.adapterInstalled],
     some { corsOptions := socketIoCorsOptions c
            pubClient := pubClient
            subClient := subClient })
  else
    ([StartupEvent.socketIoServerCreated], none)

/-- Outcome of the startup sequence: the milestones reached in order, and the
exit code when the process terminates (none when it keeps running). -/
structure StartOutcome where
  events : List StartupEvent
  exitCode : Option Nat
deriving DecidableEq, Repr

/-- AkademiaServer.startServer (setupServer.ts lines 90-100): inside a try
block it starts the HTTP listener, then awaits createSocketIO, then runs
socketIOConnections; the catch block only calls log.error, and no branch
exits the process. -/
def startServer (c : Config) (pubOk subOk : Bool) : StartOutcome :=
  match createSocketIo c pubOk subOk with
  | (evs, some _) =>
      { events := StartupEvent.httpListen :: evs ++
          [StartupEvent.socketIoConnectionsSetup]
        exitCode := none }
  | (evs, none) =>
      { events := StartupEvent.httpListen :: evs ++ [StartupEvent.logError]
        exitCode := none }

/-- Log lines of the database connection routine (setupDB.ts). -/
inductive DbEvent where
  | logInfoConnected
  | logErrorConnecting
deriving DecidableEq, Repr

/-- Outcome of a database connection attempt: the log lines produced and the
exit code when the process terminates (none when it keeps running). -/
structure DbOutcome where
  events : List DbEvent
  exitCode : Option Nat
deriving DecidableEq, Repr

/-- The inner connect routine of setupDB.ts (lines 9-19): mongoose.connect
then logs success, and on rejection logs the error and calls
process.exit(1).  The Boolean says whether the connect attempt succeeds. -/
def connect (ok : Bool) : DbOutcome :=
  if ok then
    { events := [DbEvent.logInfoConnected], exitCode := none }
  else
    { events := [DbEvent.logErrorConnecting], exitCode := some 1 }

/-- The disconnected handler of setupDB.ts (line 22): on the disconnected
event the connect routine is invoked again, immediately and unconditionally. -/
def onDisconnected (reconnectOk : Bool) : DbOutcome := connect reconnectOk

/-- Fields of an IAuthDocument read by SignIn.read (signin.ts); the stored
password hash and comparePassword live in the external auth model, so
password comparison is a parameter of the embedding. -/
structure IAuthDocument where
  _id : String
  uId : String
  email : String
  username : String
  avatarColor : String
  createdAt : Nat
deriving DecidableEq, Repr

/-- Fields of the IUserDocument assembled by SignIn.read (signin.ts lines
42-50); extra profile fields of the external user model are summarized by
the profile field to make the spread-then-override visible. -/
structure IUserDocument where
  authId : String
  username : String
  email : String
  avatarColor : String
  uId : String
  createdAt : Nat
  profile : String
deriving DecidableEq, Repr

/-- Payload signed into the JWT by SignIn.read (signin.ts lines 29-39). -/
structure JwtPayload where
  userId : String
  uId : String
  email : String
  username : String
  avatarColor : String
deriving DecidableEq, Repr

/-- A signed token: JWT.sign over the payload with config.JWT_TOKEN as
secret.  The token is kept abstract as payload plus secret rather than as an
encoded string. -/
structure SignedToken where
  payload : JwtPayload
  secret : String
deriving DecidableEq, Repr

/-- JWT.sign (signin.ts line 29). -/
def JWT.sign (payload : JwtPayload) (secret : String) : SignedToken :=
  { payload := payload, secret := secret }

/-- Payload assembled by SignIn.read from the auth document (signin.ts
lines 31-37): userId from _id, together with uId, email, username and
avatarColor. -/
def jwtPayloadOf (u : IAuthDocument) : JwtPayload :=
  { userId := u._id
    uId := u.uId
    email := u.email
    username := u.username
    avatarColor := u.avatarColor }

/-- The session object assigned to req.session (signin.ts line 41). -/
structure Session where
  jwt : SignedToken
deriving DecidableEq, Repr

/-- Errors thrown by SignIn.read: both failure branches construct
BadReqestError with a message (signin.ts lines 20 and 25). -/
inductive SignInError where
  | badRequest (message : String)
deriving DecidableEq, Repr

/-- The JSON body sent on success (signin.ts line 52). -/
structure SignInResponseBody where
  message : String
  user : IUserDocument
  token : SignedToken
deriving DecidableEq, Repr

/-- The observable result of a successful SignIn.read: the response status,
the session cookie contents, and the response body. -/
structure SignInResult where
  status : Nat
  session : Option Session
  body : SignInResponseBody
deriving DecidableEq, Repr

/-- SignIn.read (signin.ts lines 15-53).  The external collaborators are
parameters: getAuthUserByUsername of authService, comparePassword of the
auth document, getUserByAuthId of userService.  When the username is
unknown or the password does not match it throws BadReqestError with
message Invalid credentials; otherwise it signs the JWT from the auth
fields of the auth document, stores it in req.session, assembles the user document by
spreading the read user and overriding identity fields from the auth
document, and responds 201 CREATED with message, user and token. -/
def SignIn.read
    (getAuthUserByUsername : String → Option IAuthDocument)
    (comparePassword : IAuthDocument → String → Bool)
    (getUserByAuthId : String → IUserDocument)
    (jwtSecret : String)
    (username password : String) : Except SignInError SignInResult :=
  match getAuthUserByUsername username with
  | none => Except.error (SignInError.badRequest "Invalid credentials")
  | some existingUser =>
    if !comparePassword existingUser password then
      Except.error (SignInError.badRequest "Invalid credentials")
    else
      let readUser := getUserByAuthId existingUser._id
      let userJwt := JWT.sign
        { userId := existingUser._id
          uId := existingUser.uId
          email := existingUser.email
          username := existingUser.username
          avatarColor := existingUser.avatarColor } jwtSecret
      let userDocument : IUserDocument :=
        { readUser with
          authId := existingUser._id
          username := existingUser.username
          email := existingUser.email
          avatarColor := existingUser.avatarColor
          uId := existingUser.uId
          createdAt := existingUser.createdAt }
      Except.ok
        { status := 201
          session := some { jwt := userJwt }
          body := { message := "User logged in successfully"
                    user := userDocument
                    token := userJwt } }

/-- The result value produced by the success path of SignIn.read, written
out once so theorems can name the existential witness explicitly. -/
def signInSuccessResult (u : IAuthDocument)
    (getUserByAuthId : String → IUserDocument) (jwtSecret : String) :
    SignInResult :=
  { status := 201
    session := some { jwt := JWT.sign (jwtPayloadOf u) jwtSecret }
    body := { message := "User logged in successfully"
              user := { getUserByAuthId u._id with
                        authId := u._id
                        username := u.username
                        email := u.email
                        avatarColor := u.avatarColor
                        uId := u.uId
                        createdAt := u.createdAt }
              token := JWT.sign (jwtPayloadOf u) jwtSecret } }

/-- Concrete configuration used to evaluate the definitions. -/
def sampleConfig : Config :=
  { SECRET_KEY_ONE := "cookie-key-one"
    SECRET_KEY_TWO := "cookie-key-two"
    NODE_ENV := "production"
    CLIENT_URL := "http://localhost:3000"
    REDIS_HOST := "redis://localhost:6379"
    DATABASE_URL := "mongodb://localhost:27017/akademia"
    JWT_TOKEN := "jwt-secret" }

/-- Concrete auth document used to evaluate SignIn.read. -/
def aliceAuth : IAuthDocument :=
  { _id := "auth-1"
    uId := "12345"
    email := "alice@mail.test"
    username := "Alice"
    avatarColor := "red"
    createdAt := 1700000000 }

/-- Concrete getAuthUserByUsername: only Alice is registered. -/
def sampleGetAuth : String → Option IAuthDocument :=
  fun s => if s == "Alice" then some aliceAuth else none

/-- Concrete comparePassword: the stored password is hunter2. -/
def sampleComparePassword : IAuthDocument → String → Bool :=
  fun _ p => p == "hunter2"

/-- Concrete getUserByAuthId: a user document whose identity fields differ
from the auth document, so the override in SignIn.read is observable. -/
def sampleGetUser : String → IUserDocument :=
  fun i =>
    { authId := i
      username := "stale-name"
      email := "stale@mail.test"
      avatarColor := "blue"
      uId := "0"
      createdAt := 0
      profile := "alice-profile" }

/-- Helper: SignIn.read on a known username with a matching password
evaluates to the success result. -/
theorem signin_read_success_eq
    (getAuthUserByUsername : String → Option IAuthDocument)
    (comparePassword : IAuthDocument → String → Bool)
    (getUserByAuthId : String → IUserDocument)
    (jwtSecret username password : String) (u : IAuthDocument)
    (hUser : getAuthUserByUsername username = some u)
    (hPw : comparePassword u password = true) :
    SignIn.read getAuthUserByUsername comparePassword getUserByAuthId
      jwtSecret username password =
      Except.ok (signInSuccessResult u getUserByAuthId jwtSecret) := by
  simp [SignIn.read, hUser, hPw, signInSuccessResult, jwtPayloadOf, JWT.sign]

/-- C1 counterexample: when both bus connects fail during startup the
process does not exit (exit code is none, contradicting a nonzero exit) and
the HTTP listener is serving. -/
theorem C1_busFailure_no_exit_counterexample :
    (startServer sampleConfig false false).exitCode = none ∧
    StartupEvent.httpListen ∈ (startServer sampleConfig false false).events := by
  decide

/-- C1 (amended): if either bus connection fails during startup, the error
is caught and logged, the process does not exit, the HTTP listener started
before the connection attempt keeps serving, and the Redis adapter is never
installed. -/
theorem C1_busFailure_logs_and_continues (c : Config) (pubOk subOk : Bool)
    (h : (pubOk && subOk) = false) :
    (startServer c pubOk subOk).exitCode = none ∧
    StartupEvent.httpListen ∈ (startServer c pubOk subOk).events ∧
    StartupEvent.logError ∈ (startServer c pubOk subOk).events ∧
    StartupEvent.adapterInstalled ∉ (startServer c pubOk subOk).events := by
  simp [startServer, createSocketIo, h]

/-- C1 witness: the amended theorem evaluated at the sample configuration
with the subscribe connect failing. -/
theorem C1_busFailure_logs_and_continues_witness :
    (startServer sampleConfig true false).exitCode = none ∧
    StartupEvent.httpListen ∈ (startServer sampleConfig true false).events ∧
    StartupEvent.logError ∈ (startServer sampleConfig true false).events ∧
    StartupEvent.adapterInstalled ∉ (startServer sampleConfig true false).events :=
  C1_busFailure_logs_and_continues sampleConfig true false rfl

/-- C2 counterexample: an error that is not a CustomError is passed to
next() and in particular is not converted into an InternalError (500)
response. -/
theorem C2_unknown_error_not_internal_counterexample :
    globalErrorHandler (AppError.unknown "boom") = ErrorHandlerOutcome.passToNext ∧
    (globalErrorHandler (AppError.unknown "boom")).isInternalErrorResponse = false := by
  decide

/-- C2 (amended): a recognized CustomError yields a response carrying that
status code of the error and serialized message, while an unrecognized error is
passed to next() with no response produced by this handler. -/
theorem C2_globalErrorHandler_dispatch (e : CustomError) (m : String) :
    globalErrorHandler (AppError.custom e) =
      ErrorHandlerOutcome.respond e.statusCode e.serializeErrors ∧
    globalErrorHandler (AppError.unknown m) = ErrorHandlerOutcome.passToNext :=
  ⟨rfl, rfl⟩

/-- C3 counterexample: the HTTP-layer CORS origin is the wildcard, not the
configured client URL used by the real-time transport. -/
theorem C3_httpCors_wildcard_counterexample :
    httpCorsOptions.origin = CorsOrigin.any ∧
    httpCorsOptions.origin ≠ (socketIoCorsOptions sampleConfig).origin := by
  decide

/-- C3 (amended): the real-time transport restricts allowed origins to the
configured client URL while the HTTP layer allows any origin, and both
layers permit exactly the methods GET, POST, PUT, DELETE and OPTIONS. -/
theorem C3_corsPolicy (c : Config) :
    httpCorsOptions.origin = CorsOrigin.any ∧
    httpCorsOptions.methods = ["GET", "POST", "PUT", "DELETE", "OPTIONS"] ∧
    (socketIoCorsOptions c).origin = CorsOrigin.url c.CLIENT_URL ∧
    (socketIoCorsOptions c).methods = ["GET", "POST", "PUT", "DELETE", "OPTIONS"] :=
  ⟨rfl, rfl, rfl, rfl⟩

/-- C4: the session cookie is named session and its secure flag is set
exactly outside development, but the configured maxAge is the number
604800 interpreted by cookie-session in milliseconds, which differs from
the 604800000 milliseconds of the claimed 604800 seconds (7 days). -/
theorem C4_sessionCookie_options (c : Config) :
    (cookieSessionOptions c).name = "session" ∧
    ((cookieSessionOptions c).secure = true ↔ c.NODE_ENV ≠ "development") ∧
    (cookieSessionOptions c).maxAgeMilliseconds = 604800 ∧
    sevenDaysInMilliseconds = 604800000 ∧
    (cookieSessionOptions c).maxAgeMilliseconds ≠ sevenDaysInMilliseconds := by
  refine ⟨rfl, ?_, rfl, rfl, by show (604800 : Nat) ≠ 604800000; decide⟩
  simp [cookieSessionOptions]

/-- C5 counterexample: in the successful startup sequence the HTTP listener
starts accepting connections strictly before the first bus connection is
established. -/
theorem C5_listen_before_busConnect_counterexample :
    StartupEvent.pubConnected ∈ (startServer sampleConfig true true).events ∧
    (startServer sampleConfig true true).events.indexOf StartupEvent.httpListen <
      (startServer sampleConfig true true).events.indexOf StartupEvent.pubConnected := by
  decide

/-- C5 (amended): the adapter opens the two bus connections as a duplicated
pair sharing the configured Redis url, and both are awaited before the
adapter is installed, but the HTTP listener is already accepting
connections before either bus connection is established. -/
theorem C5_broadcastAdapter_duplicated_pair_order (c : Config) :
    (createSocketIo c true true).2 = some
      { corsOptions := socketIoCorsOptions c
        pubClient := createClient c.REDIS_HOST
        subClient := (createClient c.REDIS_HOST).duplicate } ∧
    ((createClient c.REDIS_HOST).duplicate).url = c.REDIS_HOST ∧
    (startServer c true true).events =
      [StartupEvent.httpListen, StartupEvent.socketIoServerCreated,
       StartupEvent.pubConnected, StartupEvent.subConnected,
       StartupEvent.adapterInstalled, StartupEvent.socketIoConnectionsSetup] :=
  ⟨rfl, rfl, rfl⟩

/-- C6 counterexample: after a disconnect, a failing reconnect attempt makes
the process exit with code 1, contradicting that a post-startup
connectivity failure never causes the process to exit. -/
theorem C6_reconnect_failure_exits_counterexample :
    (onDisconnected false).exitCode = some 1 := by
  decide

/-- C6 (amended): a disconnect after startup triggers an immediate,
unconditional reconnect attempt with no backoff; if the attempt succeeds
the process continues, and if it fails the process exits with code 1. -/
theorem C6_onDisconnected_behavior :
    onDisconnected true = { events := [DbEvent.logInfoConnected], exitCode := none } ∧
    onDisconnected false = { events := [DbEvent.logErrorConnecting], exitCode := some 1 } := by
  decide

/-- C7 counterexample: the auth business routes are registered before the
authentication gate, so business dispatch is not entirely after the gate. -/
theorem C7_business_before_authGate_counterexample :
    stageOf Middleware.authRoutes = Stage.business ∧
    stageOf Middleware.verifyUser = Stage.authGate ∧
    Middleware.authRoutes ∈ registrationOrder ∧
    Middleware.verifyUser ∈ registrationOrder ∧
    registrationOrder.indexOf Middleware.authRoutes <
      registrationOrder.indexOf Middleware.verifyUser := by
  decide

/-- C7 (amended): every security filter is registered before any
body-parsing middleware, body decoding precedes the authentication gate and
all business dispatch, the gate and business dispatch precede error
normalization, and the authentication gate precedes the protected
current-user routes; however the authentication gate does not precede all
business dispatch, since the queues dashboard and the auth routes are
registered before it. -/
theorem C7_pipeline_registration_order :
    stageBefore registrationOrder Stage.security Stage.bodyDecoding ∧
    stageBefore registrationOrder Stage.bodyDecoding Stage.authGate ∧
    stageBefore registrationOrder Stage.bodyDecoding Stage.business ∧
    stageBefore registrationOrder Stage.authGate Stage.errorNorm ∧
    stageBefore registrationOrder Stage.business Stage.errorNorm ∧
    registrationOrder.indexOf Middleware.verifyUser <
      registrationOrder.indexOf Middleware.currentUserRoutes ∧
    ¬ stageBefore registrationOrder Stage.authGate Stage.business := by
  decide

/-- C8: a sign-in request whose username matches an existing user and whose
password matches responds with status 201, stores the newly signed token in
the session, and echoes the stored username, avatarColor and identifier in
the returned user object. -/
theorem C8_signin_success_behavior
    (getAuthUserByUsername : String → Option IAuthDocument)
    (comparePassword : IAuthDocument → String → Bool)
    (getUserByAuthId : String → IUserDocument)
    (jwtSecret username password : String) (u : IAuthDocument)
    (hUser : getAuthUserByUsername username = some u)
    (hPw : comparePassword u password = true) :
    ∃ r : SignInResult,
      SignIn.read getAuthUserByUsername comparePassword getUserByAuthId
        jwtSecret username password = Except.ok r ∧
      r.status = 201 ∧
      r.session = some { jwt := JWT.sign (jwtPayloadOf u) jwtSecret } ∧
      r.body.user.username = u.username ∧
      r.body.user.avatarColor = u.avatarColor ∧
      r.body.user.authId = u._id :=
  ⟨signInSuccessResult u getUserByAuthId jwtSecret,
   signin_read_success_eq getAuthUserByUsername comparePassword getUserByAuthId
     jwtSecret username password u hUser hPw,
   rfl, rfl, rfl, rfl, rfl⟩

/-- C8 witness: the success theorem evaluated at the sample database with
the correct credentials of Alice. -/
theorem C8_signin_success_behavior_witness :
    ∃ r : SignInResult,
      SignIn.read sampleGetAuth sampleComparePassword sampleGetUser
        "jwt-secret" "Alice" "hunter2" = Except.ok r ∧
      r.status = 201 ∧
      r.session = some { jwt := JWT.sign (jwtPayloadOf aliceAuth) "jwt-secret" } ∧
      r.body.user.username = aliceAuth.username ∧
      r.body.user.avatarColor = aliceAuth.avatarColor ∧
      r.body.user.authId = aliceAuth._id :=
  C8_signin_success_behavior sampleGetAuth sampleComparePassword sampleGetUser
    "jwt-secret" "Alice" "hunter2" aliceAuth (by decide) (by decide)

/-- C9: the error produced when the username is unknown is identical, in
both constructor and message, to the error produced when the username
exists but the password does not match, so a failing response does not
reveal whether the username is registered. -/
theorem C9_signin_uniform_invalid_credentials
    (gA1 gA2 : String → Option IAuthDocument)
    (cP1 cP2 : IAuthDocument → String → Bool)
    (gU1 gU2 : String → IUserDocument)
    (s1 s2 un1 pw1 un2 pw2 : String) (a : IAuthDocument)
    (h1 : gA1 un1 = none)
    (h2 : gA2 un2 = some a) (h3 : cP2 a pw2 = false) :
    SignIn.read gA1 cP1 gU1 s1 un1 pw1 =
      Except.error (SignInError.badRequest "Invalid credentials") ∧
    SignIn.read gA2 cP2 gU2 s2 un2 pw2 =
      Except.error (SignInError.badRequest "Invalid credentials") ∧
    SignIn.read gA1 cP1 gU1 s1 un1 pw1 = SignIn.read gA2 cP2 gU2 s2 un2 pw2 := by
  refine ⟨?_, ?_, ?_⟩ <;> simp [SignIn.read, h1, h2, h3]

/-- C9 witness: the uniform-error theorem evaluated at the sample database,
comparing an unknown username with Alice and a wrong password. -/
theorem C9_signin_uniform_invalid_credentials_witness :
    SignIn.read sampleGetAuth sampleComparePassword sampleGetUser
      "jwt-secret" "Bob" "anything" =
      Except.error (SignInError.badRequest "Invalid credentials") ∧
    SignIn.read sampleGetAuth sampleComparePassword sampleGetUser
      "jwt-secret" "Alice" "wrong-password" =
      Except.error (SignInError.badRequest "Invalid credentials") ∧
    SignIn.read sampleGetAuth sampleComparePassword sampleGetUser
      "jwt-secret" "Bob" "anything" =
      SignIn.read sampleGetAuth sampleComparePassword sampleGetUser
        "jwt-secret" "Alice" "wrong-password" :=
  C9_signin_uniform_invalid_credentials sampleGetAuth sampleGetAuth
    sampleComparePassword sampleComparePassword sampleGetUser sampleGetUser
    "jwt-secret" "jwt-secret" "Bob" "anything" "Alice" "wrong-password"
    aliceAuth (by decide) (by decide) (by decide)

/-- C10: on every successful sign-in the raw signed token appears in
plaintext as the token field of the JSON response body, and the session
cookie holds that same token. -/
theorem C10_signin_token_in_body_and_cookie
    (getAuthUserByUsername : String → Option IAuthDocument)
    (comparePassword : IAuthDocument → String → Bool)
    (getUserByAuthId : String → IUserDocument)
    (jwtSecret username password : String) (u : IAuthDocument)
    (hUser : getAuthUserByUsername username = some u)
    (hPw : comparePassword u password = true) :
    ∃ r : SignInResult,
      SignIn.read getAuthUserByUsername comparePassword getUserByAuthId
        jwtSecret username password = Except.ok r ∧
      r.body.token = JWT.sign (jwtPayloadOf u) jwtSecret ∧
      r.session = some { jwt := r.body.token } :=
  ⟨signInSuccessResult u getUserByAuthId jwtSecret,
   signin_read_success_eq getAuthUserByUsername comparePassword getUserByAuthId
     jwtSecret username password u hUser hPw,
   rfl, rfl⟩

/-- C10 witness: the token-exposure theorem evaluated at the sample database
with the correct credentials of Alice. -/
theorem C10_signin_token_in_body_and_cookie_witness :
    ∃ r : SignInResult,
      SignIn.read sampleGetAuth sampleComparePassword sampleGetUser
        "jwt-secret" "Alice" "hunter2" = Except.ok r ∧
      r.body.token = JWT.sign (jwtPayloadOf aliceAuth) "jwt-secret" ∧
      r.session = some { jwt := r.body.token } :=
  C10_signin_token_in_body_and_cookie sampleGetAuth sampleComparePassword
    sampleGetUser "jwt-secret" "Alice" "hunter2" aliceAuth (by decide) (by decide)

end Akademia
